import Mathlib

/-!
Shallow embedding of the pyhyeon benchmark scripts
(benchmark_runner.py, compare_jit.py, detailed_benchmark.py).

An external process invocation is modelled by its observable outcome: the
process exit code and the wall-clock time measured around it.  Python floats
are modelled as exact rationals; a Python ZeroDivisionError is modelled as
an Option.none propagating through the computation.  Printed output is
modelled as structured report lines, abstracting the literal text.
-/

/-- Observable outcome of one subprocess.run invocation together with the
wall-clock time measured around it: returncode is the process exit code and
elapsedMillis is the measured elapsed time times 1000. -/
structure Trial where
  returncode : Int
  elapsedMillis : ℚ
deriving DecidableEq

/-- Python true division a / b: raises ZeroDivisionError when b = 0,
modelled as none. -/
def pydiv (a b : ℚ) : Option ℚ :=
  if b = 0 then none else some (a / b)

/-- The trial loop of run_benchmark (benchmark_runner.py lines 9-25): a trial
with exit code 0 appends its elapsed time to times; a failing trial only
prints an error line and the loop continues with the next trial.  The second
component counts how many invocations were performed. -/
def run_benchmark_go : List Trial → List ℚ → Nat → List ℚ × Nat
  | [], times, k => (times, k)
  | t :: rest, times, k =>
    if t.returncode == 0 then run_benchmark_go rest (times ++ [t.elapsedMillis]) (k + 1)
    else run_benchmark_go rest times (k + 1)

/-- The times list built by the run_benchmark loop: elapsed times of the
successful trials, in order. -/
def successTimes (trials : List Trial) : List ℚ :=
  (run_benchmark_go trials [] 0).fst

/-- run_benchmark (benchmark_runner.py lines 5-32): if times is nonempty,
returns (sum(times)/len(times), min(times), max(times)); otherwise returns
None, None, None, modelled as none. -/
def run_benchmark (trials : List Trial) : Option (ℚ × ℚ × ℚ) :=
  match successTimes trials with
  | [] => none
  | x :: xs =>
    some ((x :: xs).sum / ((x :: xs).length : ℚ), xs.foldl min x, xs.foldl max x)

/-- One printed line of benchmark_runner.py, abstracting the literal text. -/
inductive ReportLine where
  | runOk (index : Nat) (ms : ℚ)
  | runError (index : Nat)
  | resultsHeader
  | averageLine (ms : ℚ)
  | minLine (ms : ℚ)
  | maxLine (ms : ℚ)
deriving DecidableEq

/-- Per-trial progress lines printed inside the run_benchmark loop
(benchmark_runner.py lines 22-25): one line per trial, success or failure. -/
def trialLinesFrom : Nat → List Trial → List ReportLine
  | _, [] => []
  | i, t :: rest =>
    (if t.returncode == 0 then ReportLine.runOk (i + 1) t.elapsedMillis
     else ReportLine.runError (i + 1)) :: trialLinesFrom (i + 1) rest

/-- The full sequence of per-trial lines for one benchmark. -/
def trialLines (trials : List Trial) : List ReportLine :=
  trialLinesFrom 0 trials

/-- Python truthiness of the avg value the caller receives: None and 0.0 are
falsy, every other float is truthy. -/
def truthyAvg : Option (ℚ × ℚ × ℚ) → Bool
  | none => false
  | some (a, _, _) => a != 0

/-- The caller block of benchmark_runner.py lines 43-48: the Results section
is printed only when avg is truthy; otherwise nothing at all is printed for
the results of that benchmark. -/
def renderResults (r : Option (ℚ × ℚ × ℚ)) : List ReportLine :=
  match r with
  | none => []
  | some (a, mn, mx) =>
    if a != 0 then
      [ReportLine.resultsHeader, ReportLine.averageLine a, ReportLine.minLine mn,
        ReportLine.maxLine mx]
    else []

/-- The trial loop shared by compare_jit.run_test (lines 21-38) and
detailed_benchmark.run_test (lines 15-31): a failing trial makes the whole
function return None immediately, so the remaining trials are never invoked.
The second component counts how many invocations were performed. -/
def run_test_go : List Trial → List ℚ → Nat → Option (List ℚ) × Nat
  | [], times, k => (some times, k)
  | t :: rest, times, k =>
    if t.returncode == 0 then run_test_go rest (times ++ [t.elapsedMillis]) (k + 1)
    else (none, k + 1)

/-- compare_jit.run_test (compare_jit.py lines 16-46): aborts on the first
failure; otherwise, if times is nonempty, returns the average. -/
def run_test_cj (trials : List Trial) : Option ℚ × Nat :=
  match run_test_go trials [] 0 with
  | (none, k) => (none, k)
  | (some [], k) => (none, k)
  | (some (x :: xs), k) => (some ((x :: xs).sum / ((x :: xs).length : ℚ)), k)

/-- detailed_benchmark.run_test (detailed_benchmark.py lines 14-34): aborts
on the first failure; otherwise computes sum(times) / len(times) with no
emptiness guard, so an empty times list is a ZeroDivisionError. -/
def run_test_db (trials : List Trial) : Option ℚ × Nat :=
  match run_test_go trials [] 0 with
  | (none, k) => (none, k)
  | (some times, k) => (pydiv times.sum (times.length : ℚ), k)

/-- The regime-split block of detailed_benchmark.py lines 64-68: only when
iterations > 1000 does the script compute interp_iters = 1000 and
jit_iters = iterations - 1000; otherwise nothing is computed. -/
def regimeSplit (iterations : Nat) : Option (Nat × Nat) :=
  if 1000 < iterations then some (1000, iterations - 1000) else none

/-- The printed JIT share jit_iters / iterations * 100 of line 68 of
detailed_benchmark.py, available exactly when the regime split is. -/
def jitSharePercent (iterations : Nat) : Option ℚ :=
  match regimeSplit iterations with
  | none => none
  | some (_, jit) => some ((jit : ℚ) / (iterations : ℚ) * 100)

/-- Outcome of the comparison block of detailed_benchmark.py lines 74-92. -/
inductive CompareOut where
  | notEnoughData
  | fault
  | speedup (perIter1 perIter2 improvement : ℚ)
  | noImprovement (perIter1 perIter2 : ℚ)
deriving DecidableEq

/-- Per-iteration cost in microseconds, time / iters * 1000
(detailed_benchmark.py lines 79-80); a fault when iters = 0. -/
def perIterOpt (time : ℚ) (iters : Nat) : Option ℚ :=
  match pydiv time (iters : ℚ) with
  | none => none
  | some q => some (q * 1000)

/-- detailed_benchmark.py lines 85-92: the script reports a speedup together
with its improvement percent exactly when per_iter1 > per_iter2, and
otherwise a single no-improvement outcome with no percentage. -/
def compareDirection (p1 p2 : ℚ) : CompareOut :=
  if p2 < p1 then CompareOut.speedup p1 p2 ((p1 - p2) / p1 * 100)
  else CompareOut.noImprovement p1 p2

/-- Whether the comparison block reported the speedup branch. -/
def isFaster : CompareOut → Bool
  | CompareOut.speedup _ _ _ => true
  | _ => false

/-- detailed_benchmark.py lines 74-92: a comparison happens only when at
least two results were collected, and uses the first two. -/
def comparePhase : List (Nat × ℚ) → CompareOut
  | (i1, t1) :: (i2, t2) :: _ =>
    match perIterOpt t1 i1, perIterOpt t2 i2 with
    | some p1, some p2 => compareDirection p1 p2
    | _, _ => CompareOut.fault
  | _ => CompareOut.notEnoughData

/-- detailed_benchmark.py lines 51-61 for one test: when avg is truthy the
entry is appended to results and avg / iterations * 1000 is evaluated, which
is a ZeroDivisionError when iterations = 0; a falsy avg is skipped.  The
outer none is the fault; the inner option is membership in results. -/
def processTest (iterations : Nat) (avg : Option ℚ) : Option (Option (Nat × ℚ)) :=
  match avg with
  | none => some none
  | some a =>
    if a != 0 then
      match pydiv a (iterations : ℚ) with
      | none => none
      | some _ => some (some (iterations, a))
    else some none

/-- The results list built by the main loop of detailed_benchmark.py
(lines 50-61); none if some test faulted. -/
def buildResults : List (Nat × Option ℚ) → Option (List (Nat × ℚ))
  | [] => some []
  | (i, a) :: rest =>
    match processTest i a with
    | none => none
    | some none => buildResults rest
    | some (some e) => (buildResults rest).map (fun l => e :: l)

/-- The detailed-benchmark analysis: collect the results, then run the
comparison block on them; none is a fatal fault before any comparison. -/
def detailedMain (tests : List (Nat × Option ℚ)) : Option CompareOut :=
  (buildResults tests).map comparePhase

/-! ### Characterizations of the trial loops -/

theorem run_benchmark_go_spec (trials : List Trial) :
    ∀ times k, run_benchmark_go trials times k =
      (times ++ (trials.filter (fun t => t.returncode == 0)).map (fun t => t.elapsedMillis),
        k + trials.length) := by
  induction trials with
  | nil => intro times k; simp [run_benchmark_go]
  | cons t rest ih =>
    intro times k
    cases hb : (t.returncode == 0) with
    | true =>
      have hstep : run_benchmark_go (t :: rest) times k =
          run_benchmark_go rest (times ++ [t.elapsedMillis]) (k + 1) := by
        simp [run_benchmark_go, hb]
      rw [hstep, ih]
      rw [Prod.ext_iff]
      constructor
      · simp [List.filter_cons, hb]
      · simp only [List.length_cons]
        omega
    | false =>
      have hstep : run_benchmark_go (t :: rest) times k =
          run_benchmark_go rest times (k + 1) := by
        simp [run_benchmark_go, hb]
      rw [hstep, ih]
      rw [Prod.ext_iff]
      constructor
      · simp [List.filter_cons, hb]
      · simp only [List.length_cons]
        omega

theorem successTimes_eq (trials : List Trial) :
    successTimes trials =
      (trials.filter (fun t => t.returncode == 0)).map (fun t => t.elapsedMillis) := by
  simp [successTimes, run_benchmark_go_spec]

theorem run_benchmark_all_fail (trials : List Trial) (h : ∀ t ∈ trials, t.returncode ≠ 0) :
    run_benchmark trials = none := by
  have hst : successTimes trials = [] := by
    rw [successTimes_eq]
    have : trials.filter (fun t => t.returncode == 0) = [] := by
      rw [List.filter_eq_nil_iff]
      intro t ht
      simp [h t ht]
    rw [this]
    rfl
  unfold run_benchmark
  rw [hst]

theorem run_test_go_all_ok (trials : List Trial) :
    ∀ times k, (∀ t ∈ trials, t.returncode = 0) →
      run_test_go trials times k =
        (some (times ++ trials.map (fun t => t.elapsedMillis)), k + trials.length) := by
  induction trials with
  | nil => intro times k _; simp [run_test_go]
  | cons t rest ih =>
    intro times k h
    have h0 : t.returncode = 0 := h t (List.mem_cons_self t rest)
    have hb : (t.returncode == 0) = true := by simp [h0]
    have hstep : run_test_go (t :: rest) times k =
        run_test_go rest (times ++ [t.elapsedMillis]) (k + 1) := by
      simp [run_test_go, hb]
    rw [hstep, ih _ _ (fun u hu => h u (List.mem_cons_of_mem t hu))]
    rw [Prod.ext_iff]
    constructor
    · simp
    · simp only [List.length_cons]
      omega

theorem run_test_go_aborts (trials : List Trial) :
    ∀ times k, (∃ t ∈ trials, t.returncode ≠ 0) →
      (run_test_go trials times k).fst = none := by
  induction trials with
  | nil =>
    intro times k h
    rcases h with ⟨t, ht, _⟩
    cases ht
  | cons t rest ih =>
    intro times k h
    cases hb : (t.returncode == 0) with
    | false => simp [run_test_go, hb]
    | true =>
      have h0 : t.returncode = 0 := by simpa using hb
      have hstep : run_test_go (t :: rest) times k =
          run_test_go rest (times ++ [t.elapsedMillis]) (k + 1) := by
        simp [run_test_go, hb]
      rw [hstep]
      apply ih
      rcases h with ⟨u, hu, hne⟩
      rcases List.mem_cons.mp hu with rfl | hu2
      · exact absurd h0 hne
      · exact ⟨u, hu2, hne⟩

theorem trialLinesFrom_length (trials : List Trial) :
    ∀ i, (trialLinesFrom i trials).length = trials.length := by
  induction trials with
  | nil => intro i; rfl
  | cons t rest ih => intro i; simp [trialLinesFrom, ih]

theorem trialLinesFrom_all_error (trials : List Trial) (h : ∀ t ∈ trials, t.returncode ≠ 0) :
    ∀ i, ∀ l ∈ trialLinesFrom i trials, ∃ j, l = ReportLine.runError j := by
  induction trials with
  | nil => intro i l hl; cases hl
  | cons t rest ih =>
    intro i l hl
    have hb : (t.returncode == 0) = false := by
      simp [h t (List.mem_cons_self t rest)]
    have hstep : trialLinesFrom i (t :: rest) =
        ReportLine.runError (i + 1) :: trialLinesFrom (i + 1) rest := by
      simp [trialLinesFrom, hb]
    rw [hstep] at hl
    rcases List.mem_cons.mp hl with rfl | hl2
    · exact ⟨i + 1, rfl⟩
    · exact ih (fun u hu => h u (List.mem_cons_of_mem t hu)) (i + 1) l hl2

/-! ### Minimum and maximum of a fold, as computed by run_benchmark -/

theorem foldl_min_le_init (xs : List ℚ) : ∀ x : ℚ, xs.foldl min x ≤ x := by
  induction xs with
  | nil => intro x; exact le_refl x
  | cons y ys ih =>
    intro x
    simp only [List.foldl_cons]
    exact le_trans (ih (min x y)) (min_le_left x y)

theorem foldl_min_le (xs : List ℚ) : ∀ x : ℚ, ∀ y ∈ x :: xs, xs.foldl min x ≤ y := by
  induction xs with
  | nil =>
    intro x y hy
    rcases List.mem_cons.mp hy with rfl | hy2
    · exact le_refl y
    · cases hy2
  | cons z zs ih =>
    intro x y hy
    simp only [List.foldl_cons]
    rcases List.mem_cons.mp hy with rfl | hy2
    · exact le_trans (foldl_min_le_init zs (min y z)) (min_le_left y z)
    · rcases List.mem_cons.mp hy2 with rfl | hy3
      · exact le_trans (foldl_min_le_init zs (min x y)) (min_le_right x y)
      · exact ih (min x z) y (List.mem_cons_of_mem _ hy3)

theorem foldl_min_mem (xs : List ℚ) : ∀ x : ℚ, xs.foldl min x ∈ x :: xs := by
  induction xs with
  | nil => intro x; simp
  | cons y ys ih =>
    intro x
    simp only [List.foldl_cons]
    rcases List.mem_cons.mp (ih (min x y)) with h | h
    · rcases le_total x y with hxy | hxy
      · rw [h, min_eq_left hxy]
        simp
      · rw [h, min_eq_right hxy]
        simp
    · simp only [List.mem_cons]
      right
      right
      exact h

theorem foldl_max_ge_init (xs : List ℚ) : ∀ x : ℚ, x ≤ xs.foldl max x := by
  induction xs with
  | nil => intro x; exact le_refl x
  | cons y ys ih =>
    intro x
    simp only [List.foldl_cons]
    exact le_trans (le_max_left x y) (ih (max x y))

theorem foldl_max_ge (xs : List ℚ) : ∀ x : ℚ, ∀ y ∈ x :: xs, y ≤ xs.foldl max x := by
  induction xs with
  | nil =>
    intro x y hy
    rcases List.mem_cons.mp hy with rfl | hy2
    · exact le_refl y
    · cases hy2
  | cons z zs ih =>
    intro x y hy
    simp only [List.foldl_cons]
    rcases List.mem_cons.mp hy with rfl | hy2
    · exact le_trans (le_max_left y z) (foldl_max_ge_init zs (max y z))
    · rcases List.mem_cons.mp hy2 with rfl | hy3
      · exact le_trans (le_max_right x y) (foldl_max_ge_init zs (max x y))
      · exact ih (max x z) y (List.mem_cons_of_mem _ hy3)

theorem foldl_max_mem (xs : List ℚ) : ∀ x : ℚ, xs.foldl max x ∈ x :: xs := by
  induction xs with
  | nil => intro x; simp
  | cons y ys ih =>
    intro x
    simp only [List.foldl_cons]
    rcases List.mem_cons.mp (ih (max x y)) with h | h
    · rcases le_total x y with hxy | hxy
      · rw [h, max_eq_right hxy]
        simp
      · rw [h, max_eq_left hxy]
        simp
    · simp only [List.mem_cons]
      right
      right
      exact h

theorem foldl_min_all_zero (xs : List ℚ) (h : ∀ x ∈ xs, x = 0) : xs.foldl min 0 = 0 := by
  rcases List.mem_cons.mp (foldl_min_mem xs 0) with h0 | h0
  · exact h0
  · exact h _ h0

theorem foldl_max_all_zero (xs : List ℚ) (h : ∀ x ∈ xs, x = 0) : xs.foldl max 0 = 0 := by
  rcases List.mem_cons.mp (foldl_max_mem xs 0) with h0 | h0
  · exact h0
  · exact h _ h0

/-! ### Claims -/

/-- C1 (corrected): for a trial set with at least one successful outcome,
run_benchmark returns exactly the arithmetic mean of the successful elapsed
times, their true minimum and maximum, dividing by the number of successful
outcomes, and failed outcomes contribute nothing (the result is unchanged
when failed trials are dropped); compare_jit.run_test returns that mean only
when every trial succeeds. -/
theorem C1_theorem (trials : List Trial) (h : successTimes trials ≠ []) :
    ∃ a mn mx, run_benchmark trials = some (a, mn, mx) ∧
      a = (successTimes trials).sum / ((successTimes trials).length : ℚ) ∧
      mn ∈ successTimes trials ∧ (∀ y ∈ successTimes trials, mn ≤ y) ∧
      mx ∈ successTimes trials ∧ (∀ y ∈ successTimes trials, y ≤ mx) ∧
      (successTimes trials).length =
        (trials.filter (fun t => t.returncode == 0)).length ∧
      run_benchmark (trials.filter (fun t => t.returncode == 0)) = run_benchmark trials ∧
      ((∀ t ∈ trials, t.returncode = 0) → (run_test_cj trials).fst = some a) := by
  cases hst : successTimes trials with
  | nil => exact absurd hst h
  | cons x xs =>
    have hrb : run_benchmark trials =
        some ((x :: xs).sum / ((x :: xs).length : ℚ), xs.foldl min x, xs.foldl max x) := by
      unfold run_benchmark
      rw [hst]
    refine ⟨_, _, _, hrb, rfl, foldl_min_mem xs x, foldl_min_le xs x,
      foldl_max_mem xs x, foldl_max_ge xs x, ?_, ?_, ?_⟩
    · rw [← hst, successTimes_eq]
      exact List.length_map _ _
    · have hfil : successTimes (trials.filter (fun t => t.returncode == 0)) =
          successTimes trials := by
        rw [successTimes_eq, successTimes_eq]
        rw [List.filter_filter]
        simp
      unfold run_benchmark
      rw [hfil]
    · intro hall
      have hmap : trials.map (fun t => t.elapsedMillis) = x :: xs := by
        rw [← hst, successTimes_eq]
        have hfil2 : trials.filter (fun t => t.returncode == 0) = trials := by
          rw [List.filter_eq_self]
          intro t ht
          simp [hall t ht]
        rw [hfil2]
      unfold run_test_cj
      rw [run_test_go_all_ok trials [] 0 hall]
      simp only [List.nil_append, hmap]

/-- C1 witness: a concrete trial set with two successes and one failure,
on which run_benchmark returns the exact mean, minimum and maximum of the
successful times. -/
theorem C1_witness :
    ∃ a mn mx,
      run_benchmark [Trial.mk 0 4, Trial.mk 1 9, Trial.mk 0 10] = some (a, mn, mx) ∧
      a = (successTimes [Trial.mk 0 4, Trial.mk 1 9, Trial.mk 0 10]).sum /
        ((successTimes [Trial.mk 0 4, Trial.mk 1 9, Trial.mk 0 10]).length : ℚ) ∧
      mn ∈ successTimes [Trial.mk 0 4, Trial.mk 1 9, Trial.mk 0 10] ∧
      (∀ y ∈ successTimes [Trial.mk 0 4, Trial.mk 1 9, Trial.mk 0 10], mn ≤ y) ∧
      mx ∈ successTimes [Trial.mk 0 4, Trial.mk 1 9, Trial.mk 0 10] ∧
      (∀ y ∈ successTimes [Trial.mk 0 4, Trial.mk 1 9, Trial.mk 0 10], y ≤ mx) ∧
      (successTimes [Trial.mk 0 4, Trial.mk 1 9, Trial.mk 0 10]).length =
        ([Trial.mk 0 4, Trial.mk 1 9, Trial.mk 0 10].filter
          (fun t => t.returncode == 0)).length ∧
      run_benchmark ([Trial.mk 0 4, Trial.mk 1 9, Trial.mk 0 10].filter
          (fun t => t.returncode == 0)) =
        run_benchmark [Trial.mk 0 4, Trial.mk 1 9, Trial.mk 0 10] ∧
      ((∀ t ∈ [Trial.mk 0 4, Trial.mk 1 9, Trial.mk 0 10], t.returncode = 0) →
        (run_test_cj [Trial.mk 0 4, Trial.mk 1 9, Trial.mk 0 10]).fst = some a) :=
  C1_theorem [Trial.mk 0 4, Trial.mk 1 9, Trial.mk 0 10] (by decide)

/-- C1 counterexample: the trial set with one success of 10 ms followed by
one failure contains a successful outcome, yet compare_jit.run_test returns
no average at all instead of a summary of the successful time. -/
theorem C1_counterexample :
    successTimes [Trial.mk 0 10, Trial.mk 1 0] = [10] ∧
    (run_test_cj [Trial.mk 0 10, Trial.mk 1 0]).fst = none := by
  constructor
  · decide
  · decide

/-- C2 (confirmed): a trial set with zero successful outcomes makes
run_benchmark return none, an explicit absence, never a numeric zero. -/
theorem C2_theorem (trials : List Trial) (h : ∀ t ∈ trials, t.returncode ≠ 0) :
    run_benchmark trials = none :=
  run_benchmark_all_fail trials h

/-- C2 witness: two failing trials produce no summary. -/
theorem C2_witness : run_benchmark [Trial.mk 1 7, Trial.mk 2 3] = none :=
  C2_theorem [Trial.mk 1 7, Trial.mk 2 3] (by decide)

/-- C3 counterexample: at totalUnits = 500 (with the script's fixed warm-up
threshold of 1000), the code computes no regime split at all, whereas the
claim demands warmupUnits = min 500 1000 = 500 and nativeUnits = 0. -/
theorem C3_counterexample : regimeSplit 500 = none := by decide

/-- C3 (corrected): the regime split is computed only when
totalUnits > 1000, with the threshold fixed at 1000; in that case
warmupUnits = min totalUnits 1000 and nativeUnits = totalUnits − warmupUnits,
and warmupUnits + nativeUnits = totalUnits. -/
theorem C3_theorem (n : Nat) (h : 1000 < n) :
    regimeSplit n = some (min n 1000, n - min n 1000) ∧
    min n 1000 + (n - min n 1000) = n := by
  have hm : min n 1000 = 1000 := by omega
  constructor
  · unfold regimeSplit
    rw [if_pos h, hm]
  · omega

/-- C3 witness: the split at 10000 units. -/
theorem C3_witness :
    regimeSplit 10000 = some (min 10000 1000, 10000 - min 10000 1000) ∧
    min 10000 1000 + (10000 - min 10000 1000) = 10000 :=
  C3_theorem 10000 (by decide)

/-- C4 counterexample: at totalUnits = 0 the code computes no native
fraction at all, whereas the claim demands the value 0. -/
theorem C4_counterexample : jitSharePercent 0 = none := by decide

/-- C4 (corrected): the native share is computed only when
totalUnits > 1000; there its percentage p satisfies
p / 100 = (totalUnits − 1000) / totalUnits, which lies in [0, 1). -/
theorem C4_theorem (n : Nat) (h : 1000 < n) :
    ∃ p, jitSharePercent n = some p ∧
      p / 100 = ((n : ℚ) - 1000) / (n : ℚ) ∧
      0 ≤ p / 100 ∧ p / 100 < 1 := by
  have hn : (0 : ℚ) < (n : ℚ) := by
    exact_mod_cast (by omega : 0 < n)
  have hcast : (1000 : ℚ) ≤ (n : ℚ) := by
    exact_mod_cast (by omega : 1000 ≤ n)
  have hsub : ((n - 1000 : Nat) : ℚ) = (n : ℚ) - 1000 := by
    have h1000 : 1000 ≤ n := by omega
    push_cast [h1000]
    ring
  have hr : regimeSplit n = some (1000, n - 1000) := by
    unfold regimeSplit
    rw [if_pos h]
  have hq : (((n - 1000 : Nat) : ℚ) / (n : ℚ) * 100) / 100 = ((n : ℚ) - 1000) / (n : ℚ) := by
    rw [hsub]
    ring
  refine ⟨((n - 1000 : Nat) : ℚ) / (n : ℚ) * 100, ?_, hq, ?_, ?_⟩
  · unfold jitSharePercent
    rw [hr]
  · rw [hq]
    apply div_nonneg
    · linarith
    · linarith
  · rw [hq, div_lt_one hn]
    linarith

/-- C4 witness: the native share at 100000 units. -/
theorem C4_witness :
    ∃ p, jitSharePercent 100000 = some p ∧
      p / 100 = (((100000 : Nat) : ℚ) - 1000) / ((100000 : Nat) : ℚ) ∧
      0 ≤ p / 100 ∧ p / 100 < 1 :=
  C4_theorem 100000 (by decide)

/-- C5 counterexample: with unitsA = unitsB = 1000 and averages 2 ms and
4 ms, perUnitA = 2 > 0 yet the code computes no improvement percent at all
(the else branch carries no percentage), whereas the claim demands
improvementPercent = −100. -/
theorem C5_counterexample :
    comparePhase [(1000, 2), (1000, 4)] = CompareOut.noImprovement 2 4 := by
  norm_num [comparePhase, perIterOpt, pydiv, compareDirection]

/-- C5 (corrected): for positive unit counts the comparison computes the
per-unit cost time / units * 1000 on both sides with the same scale, and
computes improvementPercent = (perUnitA − perUnitB) / perUnitA × 100 only in
the branch where perUnitB < perUnitA; in particular, averages 55 ms over
10000 units versus 450 ms over 100000 units give per-unit costs 5.5 and 4.5
microseconds (0.0055 and 0.0045 ms), the speedup (FASTER) branch, and an
improvement of 200/11 ≈ 18.2 percent. -/
theorem C5_theorem (iA iB : Nat) (tA tB : ℚ) (hA : iA ≠ 0) (hB : iB ≠ 0)
    (hlt : tB / (iB : ℚ) * 1000 < tA / (iA : ℚ) * 1000) :
    comparePhase [(iA, tA), (iB, tB)] =
      CompareOut.speedup (tA / (iA : ℚ) * 1000) (tB / (iB : ℚ) * 1000)
        ((tA / (iA : ℚ) * 1000 - tB / (iB : ℚ) * 1000) / (tA / (iA : ℚ) * 1000) * 100) ∧
    comparePhase [(10000, 55), (100000, 450)] =
      CompareOut.speedup (11 / 2) (9 / 2) (200 / 11) ∧
    |(200 : ℚ) / 11 - 91 / 5| < 1 / 50 := by
  refine ⟨?_, ?_, ?_⟩
  · have hA2 : ((iA : ℚ)) ≠ 0 := Nat.cast_ne_zero.mpr hA
    have hB2 : ((iB : ℚ)) ≠ 0 := Nat.cast_ne_zero.mpr hB
    have hpA : perIterOpt tA iA = some (tA / (iA : ℚ) * 1000) := by
      unfold perIterOpt pydiv
      rw [if_neg hA2]
    have hpB : perIterOpt tB iB = some (tB / (iB : ℚ) * 1000) := by
      unfold perIterOpt pydiv
      rw [if_neg hB2]
    simp only [comparePhase, hpA, hpB]
    unfold compareDirection
    rw [if_pos hlt]
  · norm_num [comparePhase, perIterOpt, pydiv, compareDirection]
  · norm_num [abs]

/-- C5 witness: the comparison at the concrete scenario of the claim. -/
theorem C5_witness :
    comparePhase [(10000, 55), (100000, 450)] =
      CompareOut.speedup ((55 : ℚ) / ((10000 : Nat) : ℚ) * 1000)
        ((450 : ℚ) / ((100000 : Nat) : ℚ) * 1000)
        (((55 : ℚ) / ((10000 : Nat) : ℚ) * 1000 -
            (450 : ℚ) / ((100000 : Nat) : ℚ) * 1000) /
          ((55 : ℚ) / ((10000 : Nat) : ℚ) * 1000) * 100) ∧
    comparePhase [(10000, 55), (100000, 450)] =
      CompareOut.speedup (11 / 2) (9 / 2) (200 / 11) ∧
    |(200 : ℚ) / 11 - 91 / 5| < 1 / 50 :=
  C5_theorem 10000 100000 55 450 (by decide) (by decide) (by norm_num)

/-- C6 counterexample: no positive epsilon characterizes the code's FASTER
verdict as perUnitB < perUnitA − epsilon: for any epsilon > 0, the pair
(perUnitA, perUnitB) = (epsilon, epsilon/2) is within epsilon of equality
yet the code reports the speedup branch. -/
theorem C6_counterexample :
    ¬ ∃ ε : ℚ, 0 < ε ∧ ∀ p1 p2 : ℚ,
      (isFaster (compareDirection p1 p2) = true ↔ p2 < p1 - ε) := by
  rintro ⟨ε, hε, h⟩
  have hlt : ε / 2 < ε := by linarith
  have hf : isFaster (compareDirection ε (ε / 2)) = true := by
    unfold compareDirection
    rw [if_pos hlt]
    rfl
  have hc := (h ε (ε / 2)).mp hf
  linarith

/-- C6 (corrected): the comparison's verdict is binary and uses no epsilon:
the speedup (FASTER) branch is taken exactly when perUnitB < perUnitA
strictly, and otherwise the single no-improvement outcome is reported; there
is no separate SLOWER verdict and near-equal values with perUnitB slightly
below perUnitA do yield FASTER. -/
theorem C6_theorem (p1 p2 : ℚ) :
    (isFaster (compareDirection p1 p2) = true ↔ p2 < p1) ∧
    (compareDirection p1 p2 = CompareOut.noImprovement p1 p2 ↔ p1 ≤ p2) := by
  by_cases hc : p2 < p1
  · constructor
    · simp only [compareDirection, if_pos hc]
      simp [isFaster, hc]
    · simp only [compareDirection, if_pos hc]
      constructor
      · intro hcon
        exact CompareOut.noConfusion hcon
      · intro hle
        linarith
  · have hle : p1 ≤ p2 := le_of_not_lt hc
    constructor
    · simp only [compareDirection, if_neg hc]
      simp [isFaster, hc]
    · simp only [compareDirection, if_neg hc]
      simp [hle]

/-- C7 counterexample: with a failing first trial and a would-be successful
second trial, the shared run_test loop performs only 1 of the 2 invocations
and returns nothing, while the run_benchmark loop performs both. -/
theorem C7_counterexample :
    run_test_go [Trial.mk 1 3, Trial.mk 0 10] [] 0 = (none, 1) ∧
    (run_test_cj [Trial.mk 1 3, Trial.mk 0 10]).snd = 1 ∧
    (run_benchmark_go [Trial.mk 1 3, Trial.mk 0 10] [] 0).snd = 2 := by
  refine ⟨by decide, by decide, by decide⟩

/-- C7 (corrected): run_benchmark performs all n invocations regardless of
individual failures and emits one progress line per trial, success or
failure; but compare_jit.run_test and detailed_benchmark.run_test abort on
the first failing trial and return nothing. -/
theorem C7_theorem (trials : List Trial) :
    (run_benchmark_go trials [] 0).snd = trials.length ∧
    (trialLines trials).length = trials.length ∧
    ((∃ t ∈ trials, t.returncode ≠ 0) →
      (run_test_cj trials).fst = none ∧ (run_test_db trials).fst = none) := by
  refine ⟨?_, trialLinesFrom_length trials 0, ?_⟩
  · rw [run_benchmark_go_spec]
    simp
  · intro hex
    have hgo := run_test_go_aborts trials [] 0 hex
    constructor
    · unfold run_test_cj
      cases hr : run_test_go trials [] 0 with
      | mk o k =>
        rw [hr] at hgo
        cases o with
        | none => rfl
        | some l => simp at hgo
    · unfold run_test_db
      cases hr : run_test_go trials [] 0 with
      | mk o k =>
        rw [hr] at hgo
        cases o with
        | none => rfl
        | some l => simp at hgo

/-- C7 witness: on a concrete three-trial set with a failure in the middle,
run_benchmark performs all three invocations and emits three lines, while
both run_test variants return nothing. -/
theorem C7_witness :
    (run_benchmark_go [Trial.mk 0 5, Trial.mk 1 1, Trial.mk 0 6] [] 0).snd =
      [Trial.mk 0 5, Trial.mk 1 1, Trial.mk 0 6].length ∧
    (trialLines [Trial.mk 0 5, Trial.mk 1 1, Trial.mk 0 6]).length =
      [Trial.mk 0 5, Trial.mk 1 1, Trial.mk 0 6].length ∧
    ((run_test_cj [Trial.mk 0 5, Trial.mk 1 1, Trial.mk 0 6]).fst = none ∧
      (run_test_db [Trial.mk 0 5, Trial.mk 1 1, Trial.mk 0 6]).fst = none) :=
  ⟨(C7_theorem [Trial.mk 0 5, Trial.mk 1 1, Trial.mk 0 6]).1,
    (C7_theorem [Trial.mk 0 5, Trial.mk 1 1, Trial.mk 0 6]).2.1,
    (C7_theorem [Trial.mk 0 5, Trial.mk 1 1, Trial.mk 0 6]).2.2 (by decide)⟩

/-- C8 counterexample: when all three trials fail, the Results block of the
report is empty — no section stating anything like "no successful samples"
is rendered, the summary is silently omitted. -/
theorem C8_counterexample :
    renderResults (run_benchmark [Trial.mk 1 0, Trial.mk 1 0, Trial.mk 1 0]) = [] := by
  decide

/-- C8 (corrected): when every trial of a test case fails, the run completes
without a fault — run_benchmark returns an explicit none and one error line
is printed per trial — but the Results section renders nothing at all: the
test case's summary is silently omitted rather than marked with an explicit
no-data statement. -/
theorem C8_theorem (trials : List Trial) (h : ∀ t ∈ trials, t.returncode ≠ 0) :
    run_benchmark trials = none ∧
    renderResults (run_benchmark trials) = [] ∧
    (trialLines trials).length = trials.length ∧
    (∀ l ∈ trialLines trials, ∃ j, l = ReportLine.runError j) := by
  have hrb : run_benchmark trials = none := run_benchmark_all_fail trials h
  refine ⟨hrb, ?_, trialLinesFrom_length trials 0, trialLinesFrom_all_error trials h 0⟩
  rw [hrb]
  rfl

/-- C8 witness: a concrete test case whose single trial fails. -/
theorem C8_witness :
    run_benchmark [Trial.mk 1 2] = none ∧
    renderResults (run_benchmark [Trial.mk 1 2]) = [] ∧
    (trialLines [Trial.mk 1 2]).length = [Trial.mk 1 2].length ∧
    (∀ l ∈ trialLines [Trial.mk 1 2], ∃ j, l = ReportLine.runError j) :=
  C8_theorem [Trial.mk 1 2] (by decide)

/-- C9 counterexample: a test case with totalUnits = 0 and a successful
(nonzero) average of 5 ms is not excluded from the comparison — the script
faults with a ZeroDivisionError at the per-iteration computation, killing
the whole analysis before any comparison. -/
theorem C9_counterexample :
    processTest 0 (some 5) = none ∧
    detailedMain [(0, some 5), (100000, some 450)] = none := by
  refine ⟨by decide, by decide⟩

/-- C9 (corrected): a side with zero successful samples is gracefully
excluded — its test contributes no entry to results and with fewer than two
results the comparison block reports nothing — but a test case with zero
total units and a successful nonzero average raises a division-by-zero
fault instead of being excluded. -/
theorem C9_theorem :
    (∀ n : Nat, processTest n none = some none) ∧
    (∀ l : List (Nat × ℚ), l.length < 2 → comparePhase l = CompareOut.notEnoughData) ∧
    (∀ a : ℚ, a ≠ 0 → processTest 0 (some a) = none) := by
  refine ⟨fun n => rfl, ?_, ?_⟩
  · intro l hl
    rcases l with _ | ⟨⟨i, t⟩, _ | ⟨y, rest⟩⟩
    · rfl
    · rfl
    · simp only [List.length_cons] at hl
      omega
  · intro a ha
    simp [processTest, pydiv, ha]

/-- C9 witness: a skipped no-data test, a single-result comparison, and the
zero-units fault, at concrete inputs. -/
theorem C9_witness :
    processTest 3 none = some none ∧
    comparePhase [(10, 5)] = CompareOut.notEnoughData ∧
    processTest 0 (some 7) = none :=
  ⟨C9_theorem.1 3, C9_theorem.2.1 [(10, 5)] (by decide), C9_theorem.2.2 7 (by norm_num)⟩

/-- C10 (confirmed): a trial set whose trials all succeed with elapsed time
exactly 0 yields the summary (0, 0, 0), which the callers' truthiness check
treats exactly like the no-data case: the Results section renders the same
(nothing), and detailed_benchmark's result collection skips the test just as
it does when there is no average at all. -/
theorem C10_theorem (trials : List Trial) (h1 : trials ≠ [])
    (h2 : ∀ t ∈ trials, t.returncode = 0 ∧ t.elapsedMillis = 0) :
    run_benchmark trials = some (0, 0, 0) ∧
    truthyAvg (run_benchmark trials) = truthyAvg none ∧
    renderResults (run_benchmark trials) = renderResults none ∧
    (run_test_db trials).fst = some 0 ∧
    (∀ n : Nat, processTest n (some 0) = processTest n none) := by
  have hall : ∀ t ∈ trials, t.returncode = 0 := fun t ht => (h2 t ht).1
  have hfil : trials.filter (fun t => t.returncode == 0) = trials := by
    rw [List.filter_eq_self]
    intro t ht
    simp [hall t ht]
  have hmap : successTimes trials = trials.map (fun t => t.elapsedMillis) := by
    rw [successTimes_eq, hfil]
  have hzero : ∀ q ∈ successTimes trials, q = 0 := by
    rw [hmap]
    intro q hq
    rcases List.mem_map.mp hq with ⟨t, ht, rfl⟩
    exact (h2 t ht).2
  have hne : successTimes trials ≠ [] := by
    rw [hmap]
    intro hcon
    exact h1 (List.map_eq_nil_iff.mp hcon)
  have hlen : trials.length ≠ 0 := by
    intro hcon
    exact h1 (List.length_eq_zero.mp hcon)
  cases hst : successTimes trials with
  | nil => exact absurd hst hne
  | cons x xs =>
    have hx : x = 0 := hzero x (by rw [hst]; exact List.mem_cons_self x xs)
    have hxs : ∀ q ∈ xs, q = 0 := fun q hq =>
      hzero q (by rw [hst]; exact List.mem_cons_of_mem x hq)
    have hsum : (x :: xs).sum = 0 := by
      apply List.sum_eq_zero
      intro q hq
      rcases List.mem_cons.mp hq with rfl | hq2
      · exact hx
      · exact hxs q hq2
    have hmin : xs.foldl min x = 0 := by
      rw [hx]
      exact foldl_min_all_zero xs hxs
    have hmax : xs.foldl max x = 0 := by
      rw [hx]
      exact foldl_max_all_zero xs hxs
    have hrb : run_benchmark trials = some (0, 0, 0) := by
      unfold run_benchmark
      rw [hst]
      show some ((x :: xs).sum / ((x :: xs).length : ℚ),
        xs.foldl min x, xs.foldl max x) = some (0, 0, 0)
      rw [hsum, hmin, hmax]
      norm_num
    refine ⟨hrb, ?_, ?_, ?_, ?_⟩
    · rw [hrb]
      simp [truthyAvg]
    · rw [hrb]
      simp [renderResults]
    · have hgo := run_test_go_all_ok trials [] 0 hall
      unfold run_test_db
      rw [hgo]
      simp only [List.nil_append]
      have hsum2 : (trials.map (fun t => t.elapsedMillis)).sum = 0 := by
        rw [← hmap, hst]
        exact hsum
      have hlq : ((trials.map (fun t => t.elapsedMillis)).length : ℚ) ≠ 0 := by
        rw [List.length_map]
        exact_mod_cast hlen
      rw [hsum2]
      unfold pydiv
      rw [if_neg hlq]
      simp
    · intro n
      simp [processTest]

/-- C10 witness: one trial succeeding in exactly 0 ms. -/
theorem C10_witness :
    run_benchmark [Trial.mk 0 0] = some (0, 0, 0) ∧
    truthyAvg (run_benchmark [Trial.mk 0 0]) = truthyAvg none ∧
    renderResults (run_benchmark [Trial.mk 0 0]) = renderResults none ∧
    (run_test_db [Trial.mk 0 0]).fst = some 0 ∧
    (∀ n : Nat, processTest n (some 0) = processTest n none) :=
  C10_theorem [Trial.mk 0 0] (by decide) (by decide)
